import Mathlib

/-!
Verification development for the formcarve repository: a shallow embedding of
the FormField schema model, the validation engine (`validateField` in
src/apps/builder/src/components/forms/form-preview-modal.tsx), the submission
handlers (preview modal `handleSubmit` and the package `FormRenderer.handleSubmit`
in src/unnamed/part_002), and the builder's field-list operations
(src/apps/builder/src/components/forms/form-builder.tsx).

Conventions of the embedding:
* TypeScript optional members become `Option` fields.
* JavaScript numbers in the schema (`minLength`, `maxLength`, `min`, `max`,
  styling sizes) are modelled as `Int`: the builder writes them through
  `parseInt`, so only integral values occur, and integer template
  interpolation (`toString`) agrees exactly with JavaScript stringification.
* Values flowing through the DOM handlers (`string | boolean | null`) are the
  inductive `JsValue`; JavaScript truthiness and `toString` are modelled
  explicitly (`jsFalsy`, `jsToString`).  `value.toString()` is only ever
  reached on non-null values in the source, so the `null` case of
  `jsToString` is dead code there.
* `RegExp` is a host primitive: it is abstracted by two oracles,
  `rv : String → Bool` (does `new RegExp(p)` construct without throwing) and
  `rt : String → String → Bool` (does `new RegExp(p).test(s)` hold).  The
  construction throw is modelled with `Except Unit`.
* `parseFloat` is modelled executably for decimal numerals (optional sign,
  digits, fraction, exponent, longest valid prefix, leading whitespace
  skipped); `Infinity` is not modelled (no claim depends on it).
  `none` models `NaN`.
-/

namespace FormCarve

/-- The `validation` sub-record of the TypeScript `FormField` interface
(src/unnamed/part_002, lines 13-24).  The `email`, `url`, `phone` and
`required` flags exist in the interface but are read by no code. -/
structure ValidationRules where
  minLength : Option Int := none
  maxLength : Option Int := none
  min : Option Int := none
  max : Option Int := none
  pattern : Option String := none
  customMessage : Option String := none
  email : Option Bool := none
  url : Option Bool := none
  phone : Option Bool := none
  required : Option Bool := none
deriving Repr, DecidableEq

/-- The `styling` sub-record of the `FormField` interface. -/
structure Styling where
  borderRadius : Option Int := none
  backgroundColor : Option String := none
  borderColor : Option String := none
  textColor : Option String := none
  fontSize : Option Int := none
  padding : Option Int := none
deriving Repr, DecidableEq

/-- The `FormField` interface (src/unnamed/part_002, lines 6-33).  `type` is an
open string tag as in the source. -/
structure FormField where
  id : String
  type : String
  label : String
  placeholder : Option String := none
  required : Bool
  options : Option (List String) := none
  validation : Option ValidationRules := none
  styling : Option Styling := none
deriving Repr, DecidableEq

/-- A JavaScript value as it reaches `validateField`: a string (text inputs,
`FormData.get` results), a boolean (checkbox `e.target.checked`), or `null`
(`FormData.get` on an absent/unchecked entry). -/
inductive JsValue where
  | str : String → JsValue
  | boolVal : Bool → JsValue
  | null : JsValue
deriving Repr, DecidableEq

/-- JavaScript truthiness test `!value` for the values of `JsValue`. -/
def jsFalsy : JsValue → Bool
  | .str s => s == ""
  | .boolVal b => !b
  | .null => true

/-- JavaScript `value.toString()` for the values of `JsValue` (the `null` case
never executes in the source: every call is guarded by `!value ||`). -/
def jsToString : JsValue → String
  | .str s => s
  | .boolVal b => if b then "true" else "false"
  | .null => "null"

/-- JavaScript `String.prototype.trim`: strip whitespace from both ends
(ASCII whitespace modelled; the claims only exercise spaces and tabs). -/
def jsTrim (s : String) : String :=
  String.mk
    (((s.data.dropWhile fun c => c.isWhitespace).reverse.dropWhile
        fun c => c.isWhitespace).reverse)

/-- The emptiness test the source repeats twice:
`(!value || value.toString().trim() === '')`. -/
def requiredEmpty (v : JsValue) : Bool :=
  jsFalsy v || jsTrim (jsToString v) == ""

/-- `field.validation?.customMessage`. -/
def customMsg (f : FormField) : Option String :=
  f.validation.bind fun r => r.customMessage

/-- `field.validation?.minLength`. -/
def vMinLength (f : FormField) : Option Int :=
  f.validation.bind fun r => r.minLength

/-- `field.validation?.maxLength`. -/
def vMaxLength (f : FormField) : Option Int :=
  f.validation.bind fun r => r.maxLength

/-- `field.validation?.min`. -/
def vMin (f : FormField) : Option Int :=
  f.validation.bind fun r => r.min

/-- `field.validation?.max`. -/
def vMax (f : FormField) : Option Int :=
  f.validation.bind fun r => r.max

/-- `field.validation?.pattern`. -/
def vPattern (f : FormField) : Option String :=
  f.validation.bind fun r => r.pattern

/-- JavaScript `customMessage || generated`: an absent or empty (falsy) custom
message falls back to the generated one. -/
def msgOr (cm : Option String) (generated : String) : String :=
  match cm with
  | some m => if m == "" then generated else m
  | none => generated

/-- Digit run to a natural number. -/
def digitsToNat (l : List Char) : Nat :=
  l.foldl (fun a c => a * 10 + (c.toNat - 48)) 0

/-- Model of JavaScript `parseFloat` on decimal numerals: skip leading
whitespace, optional sign, integer digits, optional fraction, optional
exponent (an `e` not followed by digits is ignored, as in JS longest-prefix
parsing).  `none` models `NaN`.  `Infinity` is not modelled. -/
def parseFloat (s : String) : Option Rat :=
  let cs0 := s.data.dropWhile fun c => c.isWhitespace
  let sgn : Int := match cs0 with
    | '-' :: _ => -1
    | _ => 1
  let cs1 := match cs0 with
    | '-' :: r => r
    | '+' :: r => r
    | _ => cs0
  let ip := cs1.takeWhile fun c => c.isDigit
  let cs2 := cs1.drop ip.length
  let fp := match cs2 with
    | '.' :: r => r.takeWhile fun c => c.isDigit
    | _ => []
  let cs3 := match cs2 with
    | '.' :: r => r.drop fp.length
    | _ => cs2
  if ip.isEmpty && fp.isEmpty then none
  else
    let mantissa : Rat :=
      ((sgn * ((digitsToNat ip * 10 ^ fp.length + digitsToNat fp : Nat) : Int) : Int) : Rat) /
        ((10 : Rat) ^ fp.length)
    let expo : Int := match cs3 with
      | 'e' :: r =>
        let es : Int := match r with
          | '-' :: _ => -1
          | _ => 1
        let r2 := match r with
          | '-' :: rr => rr
          | '+' :: rr => rr
          | _ => r
        let ed := r2.takeWhile fun c => c.isDigit
        if ed.isEmpty then 0 else es * (digitsToNat ed : Int)
      | 'E' :: r =>
        let es : Int := match r with
          | '-' :: _ => -1
          | _ => 1
        let r2 := match r with
          | '-' :: rr => rr
          | '+' :: rr => rr
          | _ => r
        let ed := r2.takeWhile fun c => c.isDigit
        if ed.isEmpty then 0 else es * (digitsToNat ed : Int)
      | _ => 0
    some (mantissa * (10 : Rat) ^ expo)

/-- Min-length check (form-preview-modal.tsx lines 33-35):
`if (field.validation?.minLength && value.toString().length < field.validation.minLength)`.
JavaScript truthiness makes a zero `minLength` skip the check. -/
def checkMinLength (f : FormField) (v : JsValue) : Option String :=
  match vMinLength f with
  | some n =>
    if n != 0 && ((jsToString v).length : Int) < n then
      some (msgOr (customMsg f)
        (f.label ++ " must be at least " ++ toString n ++ " characters"))
    else none
  | none => none

/-- Max-length check (form-preview-modal.tsx lines 37-39). -/
def checkMaxLength (f : FormField) (v : JsValue) : Option String :=
  match vMaxLength f with
  | some n =>
    if n != 0 && ((jsToString v).length : Int) > n then
      some (msgOr (customMsg f)
        (f.label ++ " must be no more than " ++ toString n ++ " characters"))
    else none
  | none => none

/-- Numeric minimum check (form-preview-modal.tsx lines 42-47): only for
`type === 'number'` and `min !== undefined`; an unparsable value (`NaN`)
fails the check. -/
def checkNumberMin (f : FormField) (v : JsValue) : Option String :=
  if f.type == "number" then
    match vMin f with
    | some m =>
      match parseFloat (jsToString v) with
      | none =>
        some (msgOr (customMsg f) (f.label ++ " must be at least " ++ toString m))
      | some x =>
        if x < (m : Rat) then
          some (msgOr (customMsg f) (f.label ++ " must be at least " ++ toString m))
        else none
    | none => none
  else none

/-- Numeric maximum check (form-preview-modal.tsx lines 49-54). -/
def checkNumberMax (f : FormField) (v : JsValue) : Option String :=
  if f.type == "number" then
    match vMax f with
    | some m =>
      match parseFloat (jsToString v) with
      | none =>
        some (msgOr (customMsg f) (f.label ++ " must be no more than " ++ toString m))
      | some x =>
        if x > (m : Rat) then
          some (msgOr (customMsg f) (f.label ++ " must be no more than " ++ toString m))
        else none
    | none => none
  else none

/-- Pattern check (form-preview-modal.tsx lines 56-62): guarded by the
truthiness of `field.validation?.pattern` (an empty pattern is skipped);
`new RegExp(pattern)` throws when the oracle `rv` reports the pattern
invalid, modelled by `Except.error ()`. -/
def checkPattern (rv : String → Bool) (rt : String → String → Bool)
    (f : FormField) (v : JsValue) : Except Unit (Option String) :=
  match vPattern f with
  | some p =>
    if p != "" then
      if rv p then
        if rt p (jsToString v) then .ok none
        else .ok (some (msgOr (customMsg f) (f.label ++ " format is invalid")))
      else .error ()
    else .ok none
  | none => .ok none

/-- The validation engine `validateField` (form-preview-modal.tsx lines
24-65): required check, short-circuit on empty, min/max length, numeric
min/max, pattern, in source order; the first produced message wins. -/
def validateField (rv : String → Bool) (rt : String → String → Bool)
    (f : FormField) (v : JsValue) : Except Unit (Option String) :=
  if f.required && requiredEmpty v then
    .ok (some (msgOr (customMsg f) (f.label ++ " is required")))
  else if requiredEmpty v then
    .ok none
  else
    match checkMinLength f v with
    | some m => .ok (some m)
    | none =>
      match checkMaxLength f v with
      | some m => .ok (some m)
      | none =>
        match checkNumberMin f v with
        | some m => .ok (some m)
        | none =>
          match checkNumberMax f v with
          | some m => .ok (some m)
          | none => checkPattern rv rt f v

/-- The change handler `handleInputChange` (form-preview-modal.tsx lines
67-73): validate the changed field, then spread the previous error record
with the single entry `[fieldId]: error || ''` replaced.  The error map is a
total lookup `String → Option String` (a JavaScript record). -/
def handleInputChange (rv : String → Bool) (rt : String → String → Bool)
    (errors : String → Option String) (fieldId : String) (v : JsValue)
    (f : FormField) : Except Unit (String → Option String) := do
  let e ← validateField rv rt f v
  pure fun k =>
    if k = fieldId then
      some (match e with
        | some m => if m == "" then "" else m
        | none => "")
    else errors k

/-- One pass of the preview-modal submit loop (form-preview-modal.tsx lines
82-93): for each non-`submit-button` field, read its value, validate, record
a truthy error under the field id, and record the raw value in `data`.  A
thrown validation exception aborts the whole pass. -/
def collectPreview (rv : String → Bool) (rt : String → String → Bool)
    (formGet : String → JsValue) :
    List FormField → Except Unit (List (String × String) × List (String × JsValue))
  | [] => .ok ([], [])
  | f :: rest =>
    if f.type == "submit-button" then collectPreview rv rt formGet rest
    else do
      let e ← validateField rv rt f (formGet f.id)
      let pr ← collectPreview rv rt formGet rest
      pure
        ((match e with
          | some m => if m == "" then pr.1 else (f.id, m) :: pr.1
          | none => pr.1),
         (f.id, formGet f.id) :: pr.2)

/-- The preview-modal `handleSubmit` (form-preview-modal.tsx lines 75-104):
run the collection pass, replace the error map wholesale
(`setErrors(newErrors)` ignores `prevErrors`), and take the success branch
(the external submit action) exactly when the fresh error list is empty. -/
def handleSubmitPreview (rv : String → Bool) (rt : String → String → Bool)
    (fields : List FormField) (formGet : String → JsValue)
    (_prevErrors : List (String × String)) :
    Except Unit (List (String × String) × List (String × JsValue) × Bool) := do
  let pr ← collectPreview rv rt formGet fields
  pure (pr.1, pr.2, pr.1.isEmpty)

/-- The error list `handleSubmitPreview` constructs, characterized field by
field: every non-action field whose validation produces a truthy message
contributes its `(id, message)` pair, in schema order. -/
def previewErrors (rv : String → Bool) (rt : String → String → Bool)
    (fields : List FormField) (formGet : String → JsValue) :
    List (String × String) :=
  match fields with
  | [] => []
  | f :: rest =>
    if f.type == "submit-button" then previewErrors rv rt rest formGet
    else
      match validateField rv rt f (formGet f.id) with
      | .ok (some m) =>
        if m == "" then previewErrors rv rt rest formGet
        else (f.id, m) :: previewErrors rv rt rest formGet
      | _ => previewErrors rv rt rest formGet

/-- The data record `handleSubmitPreview` constructs: every non-action
field's `(id, raw value)` pair, in schema order. -/
def previewData (fields : List FormField) (formGet : String → JsValue) :
    List (String × JsValue) :=
  match fields with
  | [] => []
  | f :: rest =>
    if f.type == "submit-button" then previewData rest formGet
    else (f.id, formGet f.id) :: previewData rest formGet

/-- What `form.elements.namedItem(field.id)` can return in
`FormRenderer.handleSubmit` (src/unnamed/part_002, lines 57-76): a single
input, textarea or select element (each carrying its `value` string; inputs
also carry `checked`), a `RadioNodeList` (two or more radios sharing the
name) — which is none of the three element classes — or nothing. -/
inductive FormElement where
  | inputEl : String → Bool → FormElement
  | textareaEl : String → FormElement
  | selectEl : String → FormElement
  | radioList : FormElement
  | absent : FormElement
deriving Repr, DecidableEq

/-- A value stored in the renderer's submission payload: a string, a boolean,
or an explicitly assigned `undefined`. -/
inductive PayloadValue where
  | str : String → PayloadValue
  | boolVal : Bool → PayloadValue
  | undef : PayloadValue
deriving Repr, DecidableEq

/-- One field's contribution in `FormRenderer.handleSubmit`
(src/unnamed/part_002, lines 62-76), translated branch for branch:
the `instanceof HTMLInputElement || HTMLTextAreaElement || HTMLSelectElement`
branch stores `element.value` (a string) — note a checkbox input is an
`HTMLInputElement`, so it is caught here with its `value` attribute (the HTML
default is "on"), never its `checked` flag; the `field.type === 'checkbox'`
branch only runs when `namedItem` returned no element (where
`(null as HTMLInputElement).checked` throws, modelled by `.error`) or a
`RadioNodeList` (whose `checked` reads as `undefined`); the radio branch
queries the checked member of the group (`checkedRadio`). -/
def collectField (dom : String → FormElement)
    (checkedRadio : String → Option String) (f : FormField) :
    Except Unit (Option (String × PayloadValue)) :=
  match dom f.id with
  | .inputEl v _ => .ok (some (f.id, .str v))
  | .textareaEl v => .ok (some (f.id, .str v))
  | .selectEl v => .ok (some (f.id, .str v))
  | .radioList =>
    if f.type == "checkbox" then .ok (some (f.id, .undef))
    else if f.type == "radio" then
      .ok (some (f.id,
        match checkedRadio f.id with
        | some v => .str v
        | none => .undef))
    else .ok none
  | .absent =>
    if f.type == "checkbox" then .error ()
    else if f.type == "radio" then
      .ok (some (f.id,
        match checkedRadio f.id with
        | some v => .str v
        | none => .undef))
    else .ok none

/-- `FormRenderer.handleSubmit` (src/unnamed/part_002, lines 52-81): walk all
fields, skipping `submit-button`, collecting payload entries in schema
order; `onSubmit(formData)` is then invoked exactly once with the resulting
record, which the `.ok` result models. -/
def collectRenderer (dom : String → FormElement)
    (checkedRadio : String → Option String) :
    List FormField → Except Unit (List (String × PayloadValue))
  | [] => .ok []
  | f :: rest =>
    if f.type == "submit-button" then collectRenderer dom checkedRadio rest
    else do
      let entry ← collectField dom checkedRadio f
      let tail ← collectRenderer dom checkedRadio rest
      pure
        (match entry with
        | some kv => kv :: tail
        | none => tail)

/-- The `(value, label)` option rows of a rendered `select` control
(src/unnamed/part_002 lines 160-164 and form-preview-modal.tsx lines
183-186): an initial `<option value="">` labelled
`field.placeholder || "Select an option"`, then one row per schema option. -/
def selectOptions (f : FormField) : List (String × String) :=
  ("",
    match f.placeholder with
    | some p => if p == "" then "Select an option" else p
    | none => "Select an option") ::
  (f.options.getD []).map fun o => (o, o)

/-- The default submit button `getInitialFields` appends
(form-builder.tsx lines 52-66). -/
def defaultSubmitButton : FormField :=
  { id := "default-submit-button"
    type := "submit-button"
    label := "Submit"
    placeholder := some ""
    required := false
    styling := some
      { borderRadius := some 6
        backgroundColor := some "#3b82f6"
        borderColor := some "#3b82f6"
        textColor := some "#ffffff"
        fontSize := some 16
        padding := some 12 } }

/-- `getInitialFields` (form-builder.tsx lines 49-70): append the default
submit button when no field of type `submit-button` exists. -/
def getInitialFields (initialFields : List FormField) : List FormField :=
  if initialFields.any fun f => f.type == "submit-button" then initialFields
  else initialFields ++ [defaultSubmitButton]

/-- JavaScript `type.charAt(0).toUpperCase() + type.slice(1)` (ASCII). -/
def capitalizeJs (s : String) : String :=
  match s.data with
  | [] => ""
  | c :: rest => String.mk (c.toUpper :: rest)

/-- The field value `addField` constructs (form-builder.tsx lines 99-138);
the generated id (`generateFieldId`, a timestamp plus randomness) is a
parameter. -/
def mkNewField (ty newId : String) : FormField :=
  if ty == "submit-button" then
    { id := newId
      type := ty
      label := "Submit"
      placeholder := some ""
      required := false
      styling := some
        { borderRadius := some 6
          backgroundColor := some "#3b82f6"
          borderColor := some "#3b82f6"
          textColor := some "#ffffff"
          fontSize := some 16
          padding := some 12 } }
  else
    { id := newId
      type := ty
      label := "New " ++ capitalizeJs ty ++ " Field"
      placeholder := some ("Enter " ++ ty ++ "...")
      required := false
      options :=
        if ty == "select" || ty == "radio" then
          some ["Option 1", "Option 2", "Option 3"]
        else none
      styling := some
        { borderRadius := some 6
          backgroundColor := some "#ffffff"
          borderColor := some "#d1d5db"
          textColor := some "#000000"
          fontSize := some 14
          padding := some 12 } }

/-- `addField` (form-builder.tsx lines 93-150): refuse a second
`submit-button`, otherwise append the newly constructed field. -/
def addField (fields : List FormField) (ty newId : String) : List FormField :=
  if ty == "submit-button" && fields.any (fun f => f.type == "submit-button") then
    fields
  else fields ++ [mkNewField ty newId]

/-- `removeField` (form-builder.tsx lines 170-188): keep the list unchanged
when the field found for the id is the last `submit-button`, otherwise keep
every field whose id differs. -/
def removeField (prev : List FormField) (fieldId : String) : List FormField :=
  if (prev.find? fun f => f.id == fieldId).any
        (fun f => f.type == "submit-button")
      && (prev.filter fun f => f.type == "submit-button").length == 1 then
    prev
  else prev.filter fun f => f.id != fieldId

/-- `handleDragEnd` (form-builder.tsx lines 190-202): splice the dragged
field out of its source index and splice it back in at the destination index
(JavaScript `splice` clamps an oversized destination to the end).  The
drag-and-drop library only reports in-range source indices; an out-of-range
source is modelled as a no-op. -/
def reorderFields (l : List FormField) (src dst : Nat) : List FormField :=
  match l[src]? with
  | none => l
  | some x =>
    let rest := l.take src ++ l.drop (src + 1)
    rest.take dst ++ x :: rest.drop dst

/-- `fields.filter(field => field.type === 'submit-button').length`. -/
def submitCount (l : List FormField) : Nat :=
  (l.filter fun f => f.type == "submit-button").length

/-- Decidable equality for `Except`, used to evaluate the embedded handlers
at concrete inputs. -/
instance {e a : Type} [DecidableEq e] [DecidableEq a] :
    DecidableEq (Except e a) := fun x y =>
  match x, y with
  | .ok u, .ok w =>
    if h : u = w then isTrue (by rw [h])
    else isFalse (by intro hc; cases hc; exact h rfl)
  | .error u, .error w =>
    if h : u = w then isTrue (by rw [h])
    else isFalse (by intro hc; cases hc; exact h rfl)
  | .ok _, .error _ => isFalse (by intro hc; cases hc)
  | .error _, .ok _ => isFalse (by intro hc; cases hc)

/-- Regex-validity oracle that rejects every pattern (used for concrete
schemas whose pattern, like `"(["`, fails `new RegExp`). -/
def rv0 : String → Bool := fun _ => false

/-- Regex-test oracle for concrete schemas that never reach a regex test. -/
def rt0 : String → String → Bool := fun _ _ => false

/-- Concrete fixture: a required text field. -/
def nameField : FormField :=
  { id := "name", type := "text", label := "Name", required := true }

/-- Concrete fixture: a required field whose `customMessage` is the empty
string. -/
def nameCustomEmptyField : FormField :=
  { id := "name", type := "text", label := "Name", required := true,
    validation := some { customMessage := some "" } }

/-- Concrete fixture: a required field with a non-empty `customMessage`. -/
def nameCustomField : FormField :=
  { id := "name", type := "text", label := "Name", required := true,
    validation := some { customMessage := some "Please" } }

/-- Concrete fixture: an optional field loaded with every rule the
short-circuit law says must be ignored on an empty value. -/
def optionalStrictField : FormField :=
  { id := "opt", type := "number", label := "Opt", required := false,
    validation := some
      { minLength := some 5, maxLength := some 9, min := some 1,
        max := some 2, pattern := some "([" } }

/-- Concrete fixture: a number field with only `max` set. -/
def ageMaxField : FormField :=
  { id := "age", type := "number", label := "Age", required := false,
    validation := some { max := some 10 } }

/-- Concrete fixture: a number field with only `min` set. -/
def ageMinField : FormField :=
  { id := "age", type := "number", label := "Age", required := false,
    validation := some { min := some 3 } }

/-- Concrete fixture: a number field with a `minLength` rule. -/
def numLenField : FormField :=
  { id := "num", type := "number", label := "Num", required := false,
    validation := some { minLength := some 5 } }

/-- Concrete fixture: a checkbox field with a `maxLength` rule. -/
def cbLenField : FormField :=
  { id := "cb", type := "checkbox", label := "Agree2", required := false,
    validation := some { maxLength := some 3 } }

/-- Concrete fixture: an optional text field whose pattern is the invalid
regular expression `"(["`. -/
def patField : FormField :=
  { id := "pat", type := "text", label := "Pat", required := false,
    validation := some { pattern := some "([" } }

/-- Concrete fixture: a checkbox field. -/
def agreeField : FormField :=
  { id := "agree", type := "checkbox", label := "Agree", required := false }

/-- Concrete fixture: a select field whose placeholder is the empty
string. -/
def placeholderEmptySelect : FormField :=
  { id := "choice", type := "select", label := "Choice", required := false,
    placeholder := some "", options := some ["X", "Y"] }

/-- Concrete fixture: a select field with a non-empty placeholder. -/
def pickSelect : FormField :=
  { id := "pick", type := "select", label := "Pick", required := false,
    placeholder := some "Pick one", options := some ["A"] }

/-- Concrete schema for the submission fixtures. -/
def demoFields : List FormField := [nameField, defaultSubmitButton]

/-- Concrete `FormData.get`: nothing was entered (every entry `null`). -/
def demoGet : String → JsValue := fun _ => JsValue.null

/-- Concrete DOM for the renderer fixture: the `agree` checkbox is rendered
unchecked; an `<input type="checkbox">` with no `value` attribute reports
`value = "on"` (the HTML default) and is an `HTMLInputElement`. -/
def demoDom : String → FormElement :=
  fun i => if i = "agree" then FormElement.inputEl "on" false
  else FormElement.absent

/-- Concrete radio query: no radio is checked. -/
def noRadio : String → Option String := fun _ => none

/-- Concrete error map before a change event. -/
def errsBefore : String → Option String :=
  fun k => if k = "other" then some "old" else none

/-- The error map after re-validating the empty `name` field. -/
def errsAfter : String → Option String :=
  fun k => if k = "name" then some "Name is required" else errsBefore k

/-- An empty candidate in the sense of the spec — a string that trims to
empty, or the boolean `false` — satisfies the source's emptiness test. -/
lemma requiredEmpty_of_spec (v : JsValue)
    (h : (∃ s, v = JsValue.str s ∧ jsTrim s = "") ∨ v = JsValue.boolVal false) :
    requiredEmpty v = true := by
  rcases h with ⟨s, rfl, hs⟩ | rfl
  · simp [requiredEmpty, jsToString, hs]
  · simp [requiredEmpty, jsFalsy]

/-- Claim C2: for every field with `required = false` and an empty candidate
value (empty or whitespace-only string, or `false` for a checkbox),
`validateField` returns no error, regardless of any `minLength`, `maxLength`,
`min`, `max`, or `pattern` rules configured on the field. -/
theorem optional_empty_always_valid (rv : String → Bool)
    (rt : String → String → Bool) (f : FormField) (v : JsValue)
    (hreq : f.required = false)
    (hempty : (∃ s, v = JsValue.str s ∧ jsTrim s = "") ∨
      v = JsValue.boolVal false) :
    validateField rv rt f v = .ok none := by
  have he := requiredEmpty_of_spec v hempty
  simp [validateField, hreq, he]

/-- Witness for C2: the optional field carrying every rule, on the
whitespace-only value. -/
theorem optional_empty_always_valid_witness :
    validateField rv0 rt0 optionalStrictField (JsValue.str " ") = .ok none :=
  optional_empty_always_valid rv0 rt0 optionalStrictField (JsValue.str " ")
    rfl (Or.inl ⟨" ", rfl, by decide⟩)

/-- Counterexample to C3 as stated: with `required = true` and
`customMessage` set to the empty string, the empty value fails with the
generated message `"Name is required"`, not with the set `customMessage`
verbatim (JavaScript `||` treats the empty custom message as absent). -/
theorem required_custom_message_counterexample :
    customMsg nameCustomEmptyField = some "" ∧
    nameCustomEmptyField.required = true ∧
    validateField rv0 rt0 nameCustomEmptyField (JsValue.str "") =
      .ok (some "Name is required") ∧
    ("Name is required" : String) ≠ "" :=
  ⟨rfl, rfl, by decide, by decide⟩

/-- Claim C3 (amended): for every field with `required = true` and an empty
candidate value, `validateField` fails with the field's `customMessage`
verbatim when one is set and non-empty, and otherwise with
`"<label> is required"`; this required check wins first and no later check
runs. -/
theorem required_empty_fails_first (rv : String → Bool)
    (rt : String → String → Bool) (f : FormField) (v : JsValue)
    (hreq : f.required = true)
    (hempty : (∃ s, v = JsValue.str s ∧ jsTrim s = "") ∨
      v = JsValue.boolVal false) :
    validateField rv rt f v = .ok (some
      (match customMsg f with
      | some m => if m == "" then f.label ++ " is required" else m
      | none => f.label ++ " is required")) := by
  have he := requiredEmpty_of_spec v hempty
  simp [validateField, hreq, he, msgOr]

/-- Witness for C3 (amended): a set, non-empty custom message is returned
verbatim, on a field also carrying later rules that do not run. -/
theorem required_empty_fails_first_witness :
    validateField rv0 rt0 nameCustomField (JsValue.str "") =
      .ok (some "Please") :=
  required_empty_fails_first rv0 rt0 nameCustomField (JsValue.str "")
    rfl (Or.inl ⟨"", rfl, rfl⟩)

/-- Counterexample to C5 as stated: a field of the non-text-like type
`number` with `minLength = 5` and the short value `"123"` does return a
length violation — the source applies the length bounds to every field
type. -/
theorem length_check_nontextlike_counterexample :
    numLenField.type = "number" ∧
    validateField rv0 rt0 numLenField (JsValue.str "123") =
      .ok (some "Num must be at least 5 characters") :=
  ⟨rfl, by decide⟩

/-- Claim C5 (amended): the length-bound checks run for every field type:
whenever `minLength` is set (and non-zero, by JavaScript truthiness) and the
non-empty value's string length is below it, `validateField` returns the
minimum-length violation, regardless of the field's type; symmetrically for
`maxLength` when the minimum-length check does not fire. -/
theorem length_checks_run_for_all_types (rv : String → Bool)
    (rt : String → String → Bool) (f : FormField) (v : JsValue)
    (hne : requiredEmpty v = false) :
    (∀ n, vMinLength f = some n → n ≠ 0 →
      ((jsToString v).length : Int) < n →
      validateField rv rt f v = .ok (some (msgOr (customMsg f)
        (f.label ++ " must be at least " ++ toString n ++ " characters")))) ∧
    (∀ m, vMaxLength f = some m → checkMinLength f v = none → m ≠ 0 →
      ((jsToString v).length : Int) > m →
      validateField rv rt f v = .ok (some (msgOr (customMsg f)
        (f.label ++ " must be no more than " ++ toString m ++
          " characters")))) := by
  constructor
  · intro n hmin hnz hlt
    have hc : checkMinLength f v = some (msgOr (customMsg f)
        (f.label ++ " must be at least " ++ toString n ++ " characters")) := by
      simp [checkMinLength, hmin, hnz, hlt]
    simp [validateField, hne, hc]
  · intro m hmax hmin0 hnz hgt
    have hc : checkMaxLength f v = some (msgOr (customMsg f)
        (f.label ++ " must be no more than " ++ toString m ++
          " characters")) := by
      simp [checkMaxLength, hmax, hnz, hgt]
    simp [validateField, hne, hmin0, hc]

/-- Witness for C5 (amended): the minimum-length message on a `number` field
and the maximum-length message on a `checkbox` field. -/
theorem length_checks_run_for_all_types_witness :
    validateField rv0 rt0 numLenField (JsValue.str "123") =
      .ok (some "Num must be at least 5 characters") ∧
    validateField rv0 rt0 cbLenField (JsValue.boolVal true) =
      .ok (some "Agree2 must be no more than 3 characters") := by
  have h1 := (length_checks_run_for_all_types rv0 rt0 numLenField
    (JsValue.str "123") (by decide)).1 5 rfl (by decide) (by decide)
  have h2 := (length_checks_run_for_all_types rv0 rt0 cbLenField
    (JsValue.boolVal true) (by decide)).2 3 rfl (by decide) (by decide)
      (by decide)
  exact ⟨h1, h2⟩

/-- Counterexample to C6 as stated: the number field with only `max = 10`
set and the unparsable value `"abc"` fails with the maximum-bound message,
not a minimum-bound one (there is no `min` and no `customMessage` here, so
the claim's predicted message "<label> must be at least <min>" does not even
exist). -/
theorem unparsable_number_counterexample :
    ageMaxField.type = "number" ∧
    vMin ageMaxField = none ∧
    customMsg ageMaxField = none ∧
    parseFloat (jsToString (JsValue.str "abc")) = none ∧
    validateField rv0 rt0 ageMaxField (JsValue.str "abc") =
      .ok (some "Age must be no more than 10") ∧
    ("Age must be no more than 10" : String) ≠ "Age must be at least 10" :=
  ⟨rfl, rfl, rfl, by decide, by decide, by decide⟩

/-- Claim C6 (amended): for a `number` field with a non-empty unparsable
candidate value (and no length rule firing first), `validateField` fails
with the minimum-bound message when `min` is set; when only `max` is set it
fails with the maximum-bound message instead. -/
theorem unparsable_number_bound_failure (rv : String → Bool)
    (rt : String → String → Bool) (f : FormField) (v : JsValue)
    (hty : f.type = "number")
    (hne : requiredEmpty v = false)
    (hnan : parseFloat (jsToString v) = none)
    (hl1 : checkMinLength f v = none) (hl2 : checkMaxLength f v = none) :
    (∀ m, vMin f = some m →
      validateField rv rt f v = .ok (some (msgOr (customMsg f)
        (f.label ++ " must be at least " ++ toString m)))) ∧
    (vMin f = none → ∀ m, vMax f = some m →
      validateField rv rt f v = .ok (some (msgOr (customMsg f)
        (f.label ++ " must be no more than " ++ toString m)))) := by
  constructor
  · intro m hmin
    have hc : checkNumberMin f v = some (msgOr (customMsg f)
        (f.label ++ " must be at least " ++ toString m)) := by
      simp [checkNumberMin, hty, hmin, hnan]
    simp [validateField, hne, hl1, hl2, hc]
  · intro hmin0 m hmax
    have hcn : checkNumberMin f v = none := by
      simp [checkNumberMin, hty, hmin0]
    have hc : checkNumberMax f v = some (msgOr (customMsg f)
        (f.label ++ " must be no more than " ++ toString m)) := by
      simp [checkNumberMax, hty, hmax, hnan]
    simp [validateField, hne, hl1, hl2, hcn, hc]

/-- Witness for C6 (amended): the unparsable value `"xyz"` against a
min-only field and against a max-only field. -/
theorem unparsable_number_bound_failure_witness :
    validateField rv0 rt0 ageMinField (JsValue.str "xyz") =
      .ok (some "Age must be at least 3") ∧
    validateField rv0 rt0 ageMaxField (JsValue.str "xyz") =
      .ok (some "Age must be no more than 10") := by
  have h1 := (unparsable_number_bound_failure rv0 rt0 ageMinField
    (JsValue.str "xyz") rfl (by decide) (by decide) (by decide)
      (by decide)).1 3 rfl
  have h2 := (unparsable_number_bound_failure rv0 rt0 ageMaxField
    (JsValue.str "xyz") rfl (by decide) (by decide) (by decide)
      (by decide)).2 rfl 10 rfl
  exact ⟨h1, h2⟩

/-- Claim C7: with `validation.pattern` set to an invalid regular expression
(such patterns are non-empty, since the empty pattern is valid), every
non-empty candidate value that reaches the pattern check makes
`validateField` raise the `new RegExp` construction failure instead of
returning a validation result; an empty, non-required value still returns
no error, since the pattern is never constructed. -/
theorem invalid_pattern_throws (rv : String → Bool)
    (rt : String → String → Bool) (f : FormField) (p : String) (v : JsValue)
    (hp : vPattern f = some p) (hpe : p ≠ "") (hrv : rv p = false)
    (hne : requiredEmpty v = false)
    (h1 : checkMinLength f v = none) (h2 : checkMaxLength f v = none)
    (h3 : checkNumberMin f v = none) (h4 : checkNumberMax f v = none) :
    validateField rv rt f v = .error () ∧
    (f.required = false → ∀ w, requiredEmpty w = true →
      validateField rv rt f w = .ok none) := by
  constructor
  · have hcp : checkPattern rv rt f v = .error () := by
      simp [checkPattern, hp, hpe, hrv]
    simp [validateField, hne, h1, h2, h3, h4, hcp]
  · intro hreq w hw
    simp [validateField, hreq, hw]

/-- Witness for C7: the invalid pattern `"(["` throws on the value `"x"`
but the empty value still passes. -/
theorem invalid_pattern_throws_witness :
    validateField rv0 rt0 patField (JsValue.str "x") = .error () ∧
    validateField rv0 rt0 patField (JsValue.str "") = .ok none := by
  have h := invalid_pattern_throws rv0 rt0 patField "([" (JsValue.str "x")
    rfl (by decide) rfl (by decide) (by decide) (by decide) (by decide)
    (by decide)
  exact ⟨h.1, h.2 rfl (JsValue.str "") (by decide)⟩

/-- Claim C9: the change handler updates only the error-map entry keyed by
the changed field's id — set to the freshly computed message, or to the
clearing value `""` — and leaves the entry of every other field id
identical. -/
theorem change_handler_frame (rv : String → Bool)
    (rt : String → String → Bool) (errors : String → Option String)
    (fieldId : String) (v : JsValue) (f : FormField)
    (errs2 : String → Option String)
    (h : handleInputChange rv rt errors fieldId v f = .ok errs2) :
    (∀ k, k ≠ fieldId → errs2 k = errors k) ∧
    (∃ r, validateField rv rt f v = .ok r ∧
      errs2 fieldId = some (match r with
        | some m => if m == "" then "" else m
        | none => "")) := by
  cases hv : validateField rv rt f v with
  | error u =>
    rw [handleInputChange, hv] at h
    simp at h
  | ok r =>
    rw [handleInputChange, hv] at h
    have hfn := Except.ok.inj h
    refine ⟨fun k hk => ?_, r, rfl, ?_⟩
    · rw [← hfn]
      simp [hk]
    · rw [← hfn]
      simp

/-- Witness for C9: re-validating the empty `name` field leaves the stale
entry of `other` untouched and sets the entry of `name`. -/
theorem change_handler_frame_witness :
    errsAfter "other" = errsBefore "other" ∧
    errsAfter "name" = some "Name is required" := by
  have h := change_handler_frame rv0 rt0 errsBefore "name" (JsValue.str "")
    nameField errsAfter rfl
  refine ⟨h.1 "other" (by decide), ?_⟩
  obtain ⟨r, hr, hv⟩ := h.2
  have hconc : validateField rv0 rt0 nameField (JsValue.str "") =
      .ok (some "Name is required") := by decide
  rw [hconc] at hr
  obtain rfl : some "Name is required" = r := Except.ok.inj hr
  simpa using hv

/-- A normally-returning collection pass produces exactly the
`previewErrors` and `previewData` lists. -/
lemma collectPreview_ok (rv : String → Bool) (rt : String → String → Bool)
    (formGet : String → JsValue) :
    ∀ (fields : List FormField) (errs : List (String × String))
      (data : List (String × JsValue)),
      collectPreview rv rt formGet fields = .ok (errs, data) →
      errs = previewErrors rv rt fields formGet ∧
      data = previewData fields formGet := by
  intro fields
  induction fields with
  | nil =>
    intro errs data h
    rw [collectPreview] at h
    have hp := Except.ok.inj h
    obtain ⟨he, hd⟩ := Prod.mk.inj hp
    exact ⟨he.symm, hd.symm⟩
  | cons f rest ih =>
    intro errs data h
    rw [collectPreview] at h
    by_cases hty : (f.type == "submit-button") = true
    · rw [if_pos hty] at h
      have hr := ih errs data h
      rw [hr.1, hr.2]
      constructor
      · conv_rhs => rw [previewErrors]
        rw [if_pos hty]
      · conv_rhs => rw [previewData]
        rw [if_pos hty]
    · rw [if_neg hty] at h
      rw [Bool.not_eq_true] at hty
      cases hv : validateField rv rt f (formGet f.id) with
      | error u =>
        rw [hv] at h
        exact Except.noConfusion h
      | ok e =>
        rw [hv] at h
        cases hrest : collectPreview rv rt formGet rest with
        | error u =>
          rw [hrest] at h
          exact Except.noConfusion h
        | ok pr =>
          rw [hrest] at h
          have hp := Except.ok.inj h
          obtain ⟨he, hd⟩ := Prod.mk.inj hp
          have hr := ih pr.1 pr.2 (by rw [hrest])
          constructor
          · rw [← he, hr.1]
            conv_rhs => rw [previewErrors]
            rw [if_neg (by simp [hty]), hv]
            cases e <;> rfl
          · rw [← hd, hr.2]
            conv_rhs => rw [previewData]
            rw [if_neg (by simp [hty])]

/-- When some non-action field of the schema fails validation with a truthy
message, the fresh error list is non-empty. -/
lemma previewErrors_ne_nil (rv : String → Bool) (rt : String → String → Bool)
    (formGet : String → JsValue) :
    ∀ (fields : List FormField) (f : FormField), f ∈ fields →
      (f.type == "submit-button") = false →
      ∀ m, validateField rv rt f (formGet f.id) = .ok (some m) →
        (m == "") = false →
        previewErrors rv rt fields formGet ≠ [] := by
  intro fields
  induction fields with
  | nil =>
    intro f hf
    exact absurd hf (List.not_mem_nil f)
  | cons g rest ih =>
    intro f hf hty m hv hm
    rcases List.mem_cons.mp hf with rfl | hmem
    · rw [previewErrors, if_neg (by simp [hty]), hv]
      simp [hm]
    · have ihr := ih f hmem hty m hv hm
      rw [previewErrors]
      by_cases hg : (g.type == "submit-button") = true
      · rw [if_pos hg]
        exact ihr
      · rw [if_neg hg]
        cases hvg : validateField rv rt g (formGet g.id) with
        | error u => exact ihr
        | ok e =>
          cases e with
          | none => exact ihr
          | some m2 =>
            by_cases hm2 : (m2 == "") = true
            · simpa [hm2] using ihr
            · simp [hm2]

/-- Claim C1: on submit, every field except `submit-button` is re-validated
against its current value; when some field fails (a truthy message), the
success branch is not taken (`sub = false`, so the external submit action is
not invoked), the fresh error list is exactly the failing fields' ids with
their resolved messages, and the previous error map has no influence on the
result (it is replaced). -/
theorem submit_aborts_on_invalid (rv : String → Bool)
    (rt : String → String → Bool) (fields : List FormField)
    (formGet : String → JsValue) (prev : List (String × String))
    (errs : List (String × String)) (data : List (String × JsValue))
    (sub : Bool)
    (h : handleSubmitPreview rv rt fields formGet prev =
      .ok (errs, data, sub))
    (f : FormField) (hf : f ∈ fields) (hty : f.type ≠ "submit-button")
    (m : String)
    (hm : validateField rv rt f (formGet f.id) = .ok (some m))
    (hm0 : m ≠ "") :
    sub = false ∧
    errs = previewErrors rv rt fields formGet ∧
    (∀ prev2, handleSubmitPreview rv rt fields formGet prev2 =
      .ok (errs, data, sub)) := by
  have hrepl : ∀ prev2, handleSubmitPreview rv rt fields formGet prev2 =
      handleSubmitPreview rv rt fields formGet prev := fun _ => rfl
  have horig := h
  rw [handleSubmitPreview] at h
  cases hcp : collectPreview rv rt formGet fields with
  | error u =>
    rw [hcp] at h
    simp at h
  | ok pr =>
    rw [hcp] at h
    have hp := Except.ok.inj h
    obtain ⟨he, hds⟩ := Prod.mk.inj hp
    obtain ⟨hd, hs⟩ := Prod.mk.inj hds
    have hch := collectPreview_ok rv rt formGet fields pr.1 pr.2
      (by rw [hcp])
    have herrs : errs = previewErrors rv rt fields formGet := by
      rw [← he]
      exact hch.1
    have hne2 : previewErrors rv rt fields formGet ≠ [] :=
      previewErrors_ne_nil rv rt formGet fields f hf
        (by simpa using hty) m hm (by simpa using hm0)
    have hEf : (previewErrors rv rt fields formGet).isEmpty = false := by
      cases hE : (previewErrors rv rt fields formGet).isEmpty
      · rfl
      · exact absurd (List.isEmpty_iff.mp hE) hne2
    refine ⟨?_, herrs, fun prev2 => (hrepl prev2).trans horig⟩
    rw [← hs, hch.1]
    exact hEf

/-- Witness for C1: the schema with a required `name` field and the submit
button, submitted with no entries: the success branch is not taken and the
error list is exactly the failing pair. -/
theorem submit_aborts_on_invalid_witness :
    (false = false) ∧
    ([("name", "Name is required")] =
      previewErrors rv0 rt0 demoFields demoGet) := by
  have h := submit_aborts_on_invalid rv0 rt0 demoFields demoGet []
    [("name", "Name is required")] [("name", JsValue.null)] false
    (by decide) nameField (by simp [demoFields]) (by decide)
    "Name is required" (by decide) (by decide)
  exact ⟨rfl, h.2.1⟩

/-- Claim C4, evaluated at the failing input: submitting the schema with the
unchecked `agree` checkbox. `namedItem("agree")` returns the checkbox, which
is an `HTMLInputElement`, so the first branch of
`FormRenderer.handleSubmit` stores `element.value` — the string `"on"` (the
HTML default `value` of a checkbox) — and the dedicated
`field.type === 'checkbox'` branch that would store `checked` is dead code;
the callback receives `{agree: "on"}`, never the boolean `false` the spec
describes. -/
theorem renderer_checkbox_payload_is_string :
    demoDom "agree" = FormElement.inputEl "on" false ∧
    collectRenderer demoDom noRadio [agreeField, defaultSubmitButton] =
      .ok [("agree", PayloadValue.str "on")] ∧
    PayloadValue.str "on" ≠ PayloadValue.boolVal false :=
  ⟨rfl, by decide, by decide⟩

/-- Counterexample to C10 as stated: a select field whose `placeholder` is
set to the empty string labels its initial option `"Select an option"`, not
the set placeholder (JavaScript `||` treats the empty placeholder as
absent). -/
theorem select_placeholder_empty_counterexample :
    placeholderEmptySelect.placeholder = some "" ∧
    selectOptions placeholderEmptySelect =
      [("", "Select an option"), ("X", "X"), ("Y", "Y")] ∧
    ("Select an option" : String) ≠ "" :=
  ⟨rfl, by decide, by decide⟩

/-- Claim C10 (amended): every rendered select control starts with an option
of empty-string value placed before the schema's options — so an untouched
select, whose first option is selected, submits the empty string — labelled
by the field's placeholder when one is set and non-empty, and by
`"Select an option"` otherwise (no placeholder, or an empty one). -/
theorem select_initial_option (f : FormField) :
    ∃ lbl, selectOptions f =
        ("", lbl) :: (f.options.getD []).map (fun o => (o, o)) ∧
      (∀ p, f.placeholder = some p → p ≠ "" → lbl = p) ∧
      ((f.placeholder = none ∨ f.placeholder = some "") →
        lbl = "Select an option") := by
  cases hp : f.placeholder with
  | none =>
    refine ⟨"Select an option", by rw [selectOptions, hp], ?_, fun _ => rfl⟩
    intro p hps
    simp at hps
  | some p =>
    by_cases hpe : p = ""
    · subst hpe
      refine ⟨"Select an option", by rw [selectOptions, hp]; rfl, ?_,
        fun _ => rfl⟩
      intro q hq hne
      exact absurd (Option.some.inj hq).symm hne
    · refine ⟨p, ?_, ?_, ?_⟩
      · rw [selectOptions, hp]
        simp [hpe]
      · intro q hq _
        exact Option.some.inj hq
      · rintro (hq | hq)
        · simp at hq
        · exact absurd (Option.some.inj hq) hpe

/-- Witness for C10 (amended): the non-empty placeholder `"Pick one"` labels
the initial empty-valued option. -/
theorem select_initial_option_witness :
    selectOptions pickSelect = [("", "Pick one"), ("A", "A")] := by
  obtain ⟨lbl, he, hset, _⟩ := select_initial_option pickSelect
  have hl : lbl = "Pick one" := hset "Pick one" rfl (by decide)
  rw [hl] at he
  simpa using he

/-- `submitCount` distributes over append. -/
lemma submitCount_append (l1 l2 : List FormField) :
    submitCount (l1 ++ l2) = submitCount l1 + submitCount l2 := by
  simp [submitCount, List.filter_append]

/-- A list holding exactly one submit button reports one through `any`. -/
lemma any_submit_of_count_one (l : List FormField)
    (h : submitCount l = 1) :
    (l.any fun f => f.type == "submit-button") = true := by
  rw [List.any_eq_true]
  have hne : (l.filter fun f => f.type == "submit-button") ≠ [] := by
    intro hnil
    rw [submitCount, hnil] at h
    cases h
  obtain ⟨x, hx⟩ := List.exists_mem_of_ne_nil _ hne
  exact ⟨x, (List.mem_filter.mp hx).1, (List.mem_filter.mp hx).2⟩

/-- A list with no submit button reports none through `any`. -/
lemma any_submit_of_count_zero (l : List FormField)
    (h : submitCount l = 0) :
    (l.any fun f => f.type == "submit-button") = false := by
  cases hA : l.any fun f => f.type == "submit-button"
  · rfl
  · exfalso
    obtain ⟨x, hxl, hxp⟩ := List.any_eq_true.mp hA
    have : x ∈ l.filter fun f => f.type == "submit-button" :=
      List.mem_filter.mpr ⟨hxl, hxp⟩
    rw [submitCount, List.length_eq_zero] at h
    rw [h] at this
    cases this

/-- Dropping only fields of a given id that are not submit buttons keeps the
submit-button count. -/
lemma submitCount_filter_ne (l : List FormField) (fid : String)
    (h : ∀ x ∈ l, x.id = fid → ¬x.type = "submit-button") :
    submitCount (l.filter fun f => f.id != fid) = submitCount l := by
  induction l with
  | nil => rfl
  | cons a t ih =>
    have ht := ih fun x hx => h x (List.mem_cons_of_mem a hx)
    simp only [submitCount] at ht ⊢
    by_cases ha : a.id = fid
    · have hdrop : ¬(a.id != fid) = true := by simp [ha]
      have hnb : ¬(a.type == "submit-button") = true := by
        simpa using h a (List.mem_cons_self a t) ha
      rw [show List.filter (fun f => f.id != fid) (a :: t) =
          List.filter (fun f => f.id != fid) t from by
        rw [List.filter_cons, if_neg hdrop]]
      rw [show List.filter (fun f => f.type == "submit-button") (a :: t) =
          List.filter (fun f => f.type == "submit-button") t from by
        rw [List.filter_cons, if_neg hnb]]
      exact ht
    · have hkeep : (a.id != fid) = true := by simp [ha]
      rw [show List.filter (fun f => f.id != fid) (a :: t) =
          a :: List.filter (fun f => f.id != fid) t from by
        rw [List.filter_cons, if_pos hkeep]]
      by_cases hb : (a.type == "submit-button") = true
      · rw [show List.filter (fun f => f.type == "submit-button")
            (a :: List.filter (fun f => f.id != fid) t) =
            a :: List.filter (fun f => f.type == "submit-button")
              (List.filter (fun f => f.id != fid) t) from by
          rw [List.filter_cons, if_pos hb]]
        rw [show List.filter (fun f => f.type == "submit-button") (a :: t) =
            a :: List.filter (fun f => f.type == "submit-button") t from by
          rw [List.filter_cons, if_pos hb]]
        simp only [List.length_cons]
        rw [ht]
      · rw [show List.filter (fun f => f.type == "submit-button")
            (a :: List.filter (fun f => f.id != fid) t) =
            List.filter (fun f => f.type == "submit-button")
              (List.filter (fun f => f.id != fid) t) from by
          rw [List.filter_cons, if_neg hb]]
        rw [show List.filter (fun f => f.type == "submit-button") (a :: t) =
            List.filter (fun f => f.type == "submit-button") t from by
          rw [List.filter_cons, if_neg hb]]
        exact ht

/-- With pairwise-distinct field ids (the schema precondition), when the
field found for `fid` is not a submit button, no field with that id is. -/
lemma no_submit_with_id (l : List FormField) (fid : String)
    (hp : l.Pairwise fun a b => a.id ≠ b.id)
    (hfind : ((l.find? fun f => f.id == fid).any
      fun f => f.type == "submit-button") = false) :
    ∀ x ∈ l, x.id = fid → ¬x.type = "submit-button" := by
  induction l with
  | nil =>
    intro x hx
    exact absurd hx (List.not_mem_nil x)
  | cons a t ih =>
    have hpa := (List.pairwise_cons.mp hp).1
    have hpt := (List.pairwise_cons.mp hp).2
    intro x hx hxid
    rcases List.mem_cons.mp hx with rfl | hxt
    · have hfa : (x.id == fid) = true := by simp [hxid]
      rw [List.find?_cons_of_pos t hfa] at hfind
      simpa using hfind
    · by_cases hfa : (a.id == fid) = true
      · have haid : a.id = fid := by simpa using hfa
        exact absurd (haid.trans hxid.symm) (hpa x hxt)
      · rw [List.find?_cons_of_neg t hfa] at hfind
        exact ih hpt hfind x hxt hxid

/-- An in-range drag reorder is a permutation of the field list. -/
lemma reorderFields_perm (l : List FormField) (src dst : Nat)
    (h : src < l.length) : (reorderFields l src dst).Perm l := by
  have hget : l[src]? = some l[src] := List.getElem?_eq_getElem h
  have hsplit : l.take src ++ l[src] :: l.drop (src + 1) = l := by
    rw [← List.drop_eq_getElem_cons h, List.take_append_drop]
  simp only [reorderFields, hget]
  refine List.Perm.trans List.perm_middle ?_
  rw [List.take_append_drop]
  conv_rhs => rw [← hsplit]
  exact List.perm_middle.symm

/-- Permutations preserve the submit-button count. -/
lemma submitCount_of_perm (l1 l2 : List FormField)
    (h : l1.Perm l2) : submitCount l1 = submitCount l2 :=
  (h.filter _).length_eq

/-- Claim C8: starting from a field list with exactly one `submit-button`
(and pairwise-distinct ids, the schema precondition), the builder operations
preserve exactly one submit button: `addField` refuses a second submit
button, `removeField` refuses to remove the last one, an in-range reorder
leaves the count unchanged; and `getInitialFields` establishes the invariant
by appending the default submit button to a list that has none. -/
theorem submit_button_invariant (fields : List FormField)
    (ty newId fid : String) (src dst : Nat) (init : List FormField)
    (hone : submitCount fields = 1)
    (huniq : fields.Pairwise fun a b => a.id ≠ b.id)
    (hsrc : src < fields.length)
    (hinit : submitCount init = 0) :
    submitCount (addField fields ty newId) = 1 ∧
    submitCount (removeField fields fid) = 1 ∧
    submitCount (reorderFields fields src dst) = 1 ∧
    getInitialFields init = init ++ [defaultSubmitButton] ∧
    submitCount (getInitialFields init) = 1 := by
  have hinitAny := any_submit_of_count_zero init hinit
  refine ⟨?_, ?_, ?_, ?_, ?_⟩
  · by_cases hty : (ty == "submit-button") = true
    · rw [addField,
        if_pos (by rw [hty, any_submit_of_count_one fields hone]; rfl)]
      exact hone
    · have hty' : (ty == "submit-button") = false := by
        rw [Bool.not_eq_true] at hty
        exact hty
      rw [addField, if_neg (by simp [hty'])]
      rw [submitCount_append, hone]
      have htype : (mkNewField ty newId).type = ty := by
        rw [mkNewField, if_neg (by simp [hty'])]
      have hzero : submitCount [mkNewField ty newId] = 0 := by
        simp [submitCount, List.filter_cons, htype, hty']
      rw [hzero]
  · by_cases hcond : (((fields.find? fun f => f.id == fid).any
        fun f => f.type == "submit-button")
      && ((fields.filter fun f => f.type == "submit-button").length == 1))
        = true
    · rw [removeField, if_pos hcond]
      exact hone
    · rw [removeField, if_neg hcond]
      have hB : ((fields.filter fun f => f.type == "submit-button").length
          == 1) = true := by
        have : (fields.filter fun f => f.type == "submit-button").length = 1 :=
          hone
        simp [this]
      have hA : ((fields.find? fun f => f.id == fid).any
          fun f => f.type == "submit-button") = false := by
        cases hA : (fields.find? fun f => f.id == fid).any
            fun f => f.type == "submit-button"
        · rfl
        · exfalso
          apply hcond
          rw [hA, hB]
          rfl
      rw [submitCount_filter_ne fields fid
        (no_submit_with_id fields fid huniq hA)]
      exact hone
  · exact (submitCount_of_perm _ _
      (reorderFields_perm fields src dst hsrc)).trans hone
  · rw [getInitialFields, if_neg (by simp [hinitAny])]
  · rw [getInitialFields, if_neg (by simp [hinitAny]),
      submitCount_append, hinit]
    rfl

/-- Witness for C8: the two-field demo schema, adding a text field, removing
the `name` field, swapping the two fields, and initializing from the empty
list. -/
theorem submit_button_invariant_witness :
    submitCount (addField demoFields "text" "f2") = 1 ∧
    submitCount (removeField demoFields "name") = 1 ∧
    submitCount (reorderFields demoFields 0 1) = 1 ∧
    getInitialFields [] = [defaultSubmitButton] ∧
    submitCount (getInitialFields []) = 1 := by
  have h := submit_button_invariant demoFields "text" "f2" "name" 0 1 []
    (by decide) (by decide) (by decide) (by decide)
  exact ⟨h.1, h.2.1, h.2.2.1, by simpa using h.2.2.2.1, h.2.2.2.2⟩

end FormCarve
